import Mathlib

/-!
Verification of the slurmjobmanager job-lifecycle library.

The development shallowly embeds the two backends of the library:
`SlurmEnvironment` / `SlurmJob` (slurm.py) and `LocalEnvironment` /
`LocalJob` (local.py).  The job predicates (`blocked`, `ready`,
`complete`, `failed`) are abstract methods implemented by callers, so a
job is modelled as a record of booleans giving the value each predicate
returns.  `job.in_progress()` consults the cluster backend, so it is
passed to `queue_job` as a boolean input standing for the
backend-reported status, and the existence check on the batch-script
path is likewise a boolean input.  Each `queue_job` run is modelled as
the ordered trace of observable effects it performs (reset, cancel,
setup, script generation, external commands) together with its outcome
(success or the raised error).

External command output (the `squeue` listing consumed by
`refresh_info`) is passed in as a string parameter; the status cache of
`SlurmEnvironment` is the Python dict `_jobs_info`, modelled as an
association list that is empty until first populated.
-/

namespace SlurmJobManager

/-- The error taxonomy of the submission algorithm.  In the Python
source every rejection is a `RuntimeError`; the constructors record
which rejection message is raised. -/
inductive QueueError where
  | Blocked
  | NotReady
  | AlreadyComplete
  | AlreadyInProgress
  | AlreadyFailed
  | UnsupportedOperation
  deriving DecidableEq, Repr

/-- Observable effects performed by `queue_job` (and the helpers it
calls), in the order the Python code performs them. -/
inductive Event where
  | reset        -- job.reset()
  | cancel       -- job.cancel()  (issues the external scancel command)
  | setup        -- job.setup()
  | createScript -- writing the sbatch script file (SlurmJob.create)
  | sbatch       -- os.system(f'sbatch {slurm_script_path}')
  | runCommand   -- os.system(f'{job.command()}')  (local backend)
  deriving DecidableEq, Repr

/-- The caller-supplied lifecycle predicates of a job: the values the
abstract methods `blocked()`, `ready()`, `complete()`, `failed()`
return when `queue_job` queries them. -/
structure JobState where
  name : String
  blocked : Bool
  ready : Bool
  complete : Bool
  failed : Bool
  deriving DecidableEq, Repr

/-- Result of one `queue_job` call: the trace of effects performed
before returning, and the outcome (success or raised error). -/
structure QueueResult where
  trace : List Event
  outcome : Except QueueError Unit
  deriving Repr

/-- The `if job.complete():` block shared verbatim by both backends:
with `force` it calls `job.reset()` and continues, otherwise it raises
the already-complete error. -/
def checkComplete (job : JobState) (force : Bool) :
    Except QueueError (List Event) :=
  if job.complete then
    if force then Except.ok [Event.reset] else Except.error QueueError.AlreadyComplete
  else Except.ok []

/-- The `if job.in_progress():` block of `SlurmEnvironment.queue_job`:
with `force` it calls `job.cancel()` then `job.reset()` and continues,
otherwise it raises the in-progress error. -/
def checkInProgress (inProgress : Bool) (force : Bool) :
    Except QueueError (List Event) :=
  if inProgress then
    if force then Except.ok [Event.cancel, Event.reset]
    else Except.error QueueError.AlreadyInProgress
  else Except.ok []

/-- The `if job.failed():` block shared verbatim by both backends: with
`force` it calls `job.reset()` and continues, otherwise it raises the
already-failed error. -/
def checkFailed (job : JobState) (force : Bool) :
    Except QueueError (List Event) :=
  if job.failed then
    if force then Except.ok [Event.reset] else Except.error QueueError.AlreadyFailed
  else Except.ok []

/-- Source `SlurmEnvironment.queue_job(job, force)` (slurm.py).  `inProgress`
is the value `job.in_progress()` reports from the backend;
`scriptExists` is whether `os.path.exists(job.slurm_script_path())`
holds.  When the script is absent, `job.create()` runs, which calls
`job.setup()` and then writes the script; finally `sbatch` is
invoked. -/
def slurmQueueJob (job : JobState) (inProgress : Bool) (scriptExists : Bool)
    (force : Bool) : QueueResult :=
  if job.blocked then ⟨[], Except.error QueueError.Blocked⟩
  else if !job.ready then ⟨[], Except.error QueueError.NotReady⟩
  else
    match checkComplete job force with
    | Except.error e => ⟨[], Except.error e⟩
    | Except.ok t1 =>
      match checkInProgress inProgress force with
      | Except.error e => ⟨t1, Except.error e⟩
      | Except.ok t2 =>
        match checkFailed job force with
        | Except.error e => ⟨t1 ++ t2, Except.error e⟩
        | Except.ok t3 =>
          let t4 := if !scriptExists then [Event.setup, Event.createScript] else []
          ⟨t1 ++ t2 ++ t3 ++ t4 ++ [Event.sbatch], Except.ok ()⟩

/-- Source `LocalEnvironment.queue_job(job, force)` (local.py): the blocked,
ready, complete and failed checks (no in-progress check), then
`job.setup()` and `os.system(job.command())`. -/
def localQueueJob (job : JobState) (force : Bool) : QueueResult :=
  if job.blocked then ⟨[], Except.error QueueError.Blocked⟩
  else if !job.ready then ⟨[], Except.error QueueError.NotReady⟩
  else
    match checkComplete job force with
    | Except.error e => ⟨[], Except.error e⟩
    | Except.ok t1 =>
      match checkFailed job force with
      | Except.error e => ⟨t1, Except.error e⟩
      | Except.ok t2 =>
        ⟨t1 ++ t2 ++ [Event.setup, Event.runCommand], Except.ok ()⟩

end SlurmJobManager

namespace SlurmJobManager

/-! ### Status cache and queue-listing parsing (slurm.py) -/

/-- Python `s.split(sep)` for a single-character separator: splits on
every occurrence of `sep`, keeping empty pieces (so `''.split(sep)`
is `['']`). -/
def splitOnChar (sep : Char) : List Char → List (List Char)
  | [] => [[]]
  | c :: rest =>
    let r := splitOnChar sep rest
    if c = sep then [] :: r
    else
      match r with
      | [] => [[c]]
      | h :: t => (c :: h) :: t

/-- Python `s.split(sep)` on strings (single-character separator). -/
def pySplit (s : String) (sep : Char) : List String :=
  (splitOnChar sep s.data).map (fun l => String.mk l)

/-- The `categories` dict of `refresh_info`, as an association list in
the literal's order. -/
def categories : List (String × String) :=
  [("R", "running"), ("PD", "pending"), ("--", "unknown")]

/-- Python `d.get(key, default)` on a string-keyed dict. -/
def dictGet (d : List (String × String)) (key dflt : String) : String :=
  match d.find? (fun p => p.1 == key) with
  | some p => p.2
  | none => dflt

/-- Python `_jobs_info[category].append(jobname)` on the dict of
status-category lists. -/
def dictAppend (d : List (String × List String)) (key v : String) :
    List (String × List String) :=
  d.map (fun p => if p.1 == key then (p.1, p.2 ++ [v]) else p)

/-- The fresh `_jobs_info` dict literal built at the top of
`refresh_info`. -/
def initJobsInfoDict : List (String × List String) :=
  [("running", []), ("pending", []), ("unknown", [])]

/-- The parsing loop of `refresh_info`: each non-empty line is split on
`'-'` and unpacked as `status, jobname = tuple(line.split('-'))`; a
line that does not split into exactly two pieces makes the unpacking
raise `ValueError` (modelled as `Except.error ()`), aborting the whole
refresh.  Otherwise the job name is appended to the category list
chosen by `categories.get(status, 'unknown')`. -/
def parseSqueueLines : List String → List (String × List String) →
    Except Unit (List (String × List String))
  | [], acc => Except.ok acc
  | line :: rest, acc =>
    if line ≠ "" then
      match pySplit line '-' with
      | [status, jobname] =>
        parseSqueueLines rest (dictAppend acc (dictGet categories status "unknown") jobname)
      | _ => Except.error ()
    else parseSqueueLines rest acc

/-- The `refresh_info` computation of the new `_jobs_info` dict from the
decoded output of the `squeue` command (split on newlines, exactly as
`check_output(...).decode('utf-8').split('\n')`). -/
def refreshInfoDict (squeueOutput : String) :
    Except Unit (List (String × List String)) :=
  parseSqueueLines (pySplit squeueOutput '\n') initJobsInfoDict

/-- Source `SlurmEnvironment` state: the username and the `_jobs_info` cache,
initialised to the empty dict `{}`. -/
structure SlurmEnvironment where
  username : String
  jobsInfoCache : List (String × List String)
  deriving DecidableEq, Repr

/-- Source `SlurmEnvironment.__init__(username)`. -/
def SlurmEnvironment.init (username : String) : SlurmEnvironment :=
  ⟨username, []⟩

/-- Source `SlurmEnvironment.refresh_info()`: parse the queue listing and
replace the cache wholesale. -/
def SlurmEnvironment.refreshInfo (env : SlurmEnvironment)
    (squeueOutput : String) : Except Unit SlurmEnvironment :=
  match refreshInfoDict squeueOutput with
  | Except.error e => Except.error e
  | Except.ok d => Except.ok { env with jobsInfoCache := d }

/-- Source `SlurmEnvironment.jobs_info()`: refresh only when the cache equals
the empty dict, then return it.  The returned boolean records whether a
refresh was triggered by this call. -/
def SlurmEnvironment.jobsInfo (env : SlurmEnvironment)
    (squeueOutput : String) :
    Except Unit (List (String × List String) × SlurmEnvironment × Bool) :=
  if env.jobsInfoCache = [] then
    match env.refreshInfo squeueOutput with
    | Except.error e => Except.error e
    | Except.ok env' => Except.ok (env'.jobsInfoCache, env', true)
  else Except.ok (env.jobsInfoCache, env, false)

/-- Python `jobs_info[key]` lookup on the cache dict. -/
def lookupList (d : List (String × List String)) (key : String) :
    List String :=
  match d.find? (fun p => p.1 == key) with
  | some p => p.2
  | none => []

/-- Source `SlurmEnvironment.pending_jobs()`. -/
def SlurmEnvironment.pendingJobs (env : SlurmEnvironment)
    (squeueOutput : String) : Except Unit (List String × SlurmEnvironment) :=
  match env.jobsInfo squeueOutput with
  | Except.error e => Except.error e
  | Except.ok (d, env', _) => Except.ok (lookupList d "pending", env')

/-- Source `SlurmEnvironment.running_jobs()`. -/
def SlurmEnvironment.runningJobs (env : SlurmEnvironment)
    (squeueOutput : String) : Except Unit (List String × SlurmEnvironment) :=
  match env.jobsInfo squeueOutput with
  | Except.error e => Except.error e
  | Except.ok (d, env', _) => Except.ok (lookupList d "running", env')

/-- Source `SlurmEnvironment.unknown_jobs()`. -/
def SlurmEnvironment.unknownJobs (env : SlurmEnvironment)
    (squeueOutput : String) : Except Unit (List String × SlurmEnvironment) :=
  match env.jobsInfo squeueOutput with
  | Except.error e => Except.error e
  | Except.ok (d, env', _) => Except.ok (lookupList d "unknown", env')

/-- Source `SlurmEnvironment.cancel_by_name(name)`: issues
`os.system(f'scancel -n {name}')` and nothing else.  The result is the
(unchanged) environment together with the external command issued. -/
def SlurmEnvironment.cancelByName (env : SlurmEnvironment) (name : String) :
    SlurmEnvironment × String :=
  (env, "scancel -n " ++ name)

/-- Source `SlurmEnvironment.cancel_job(job)`: cancel by the job's name. -/
def SlurmEnvironment.cancelJob (env : SlurmEnvironment) (job : JobState) :
    SlurmEnvironment × String :=
  env.cancelByName job.name

end SlurmJobManager

namespace SlurmJobManager

/-! ### Local backend query and cancellation operations (local.py) -/

namespace LocalJob

/-- Source `LocalJob.pending()`: the source returns `False` unconditionally
("LocalJob's are considered to not be pending"). -/
def pending : Except QueueError Bool := Except.ok false

/-- Source `LocalJob.running()`: raises (cannot determine if a job is running
in a local environment). -/
def running : Except QueueError Bool :=
  Except.error QueueError.UnsupportedOperation

/-- Source `LocalJob.in_progress()`: raises. -/
def inProgress : Except QueueError Bool :=
  Except.error QueueError.UnsupportedOperation

/-- Source `LocalJob.cancel()`: raises (cannot cancel a job in a local
environment). -/
def cancel : Except QueueError Unit :=
  Except.error QueueError.UnsupportedOperation

end LocalJob

namespace LocalEnvironment

/-- Source `LocalEnvironment.pending_jobs()`: raises. -/
def pendingJobs : Except QueueError (List String) :=
  Except.error QueueError.UnsupportedOperation

/-- Source `LocalEnvironment.running_jobs()`: raises. -/
def runningJobs : Except QueueError (List String) :=
  Except.error QueueError.UnsupportedOperation

/-- Source `LocalEnvironment.in_progress_jobs()`: raises. -/
def inProgressJobs : Except QueueError (List String) :=
  Except.error QueueError.UnsupportedOperation

/-- Source `LocalEnvironment.cancel_by_name(name)`: raises. -/
def cancelByName (_name : String) : Except QueueError Unit :=
  Except.error QueueError.UnsupportedOperation

/-- Source `LocalEnvironment.cancel_job(job)`: raises. -/
def cancelJob (_job : JobState) : Except QueueError Unit :=
  Except.error QueueError.UnsupportedOperation

end LocalEnvironment

/-! ### Time and partition computation (slurm.py) -/

/-- Python `str.zfill(2)`: left-pad with `'0'` to length 2. -/
def zfill2 (s : String) : String :=
  if s.length ≥ 2 then s
  else String.mk (List.replicate (2 - s.length) '0') ++ s

/-- The `{'partition': ..., 'time': ...}` result dict of
`slurm_time_and_partition`. -/
structure TimePartition where
  partition : String
  time : String
  deriving DecidableEq, Repr

/-- Source `SlurmEnvironment.slurm_time_and_partition(time, buffer)` with the
default `buffer = 0.25`.  In the source `allocated_time = int(time * (1
+ buffer))`; with the default buffer the float product `time * 1.25` is
exact for every feasible `time`, so the `int(...)` truncation equals
`time * 5 / 4` in natural-number division.  `d` and `h` are Python
float divisions truncated by `int(...)`, that is floor divisions of
their non-negative operands, and `m = allocated_time % 60`. -/
def slurmTimeAndPartition (time : Nat) : Except String TimePartition :=
  let allocated := time * 5 / 4
  let d := allocated / (60 * 24)
  let h := (allocated - d * 24 * 60) / 60
  let m := allocated % 60
  let timeStr := toString d ++ "-" ++ zfill2 (toString h) ++ ":"
      ++ zfill2 (toString m) ++ ":00"
  if allocated < 2 * 60 then Except.ok ⟨"short", timeStr⟩
  else if allocated < 1 * 24 * 60 then Except.ok ⟨"medium", timeStr⟩
  else if allocated < 4 * 24 * 60 then Except.ok ⟨"defq", timeStr⟩
  else Except.error "Requires too much time"

/-! ### Theorems -/

/-- C1: On both backends a blocked job is rejected with the Blocked
error whatever `force` is, with an empty effect trace: no reset,
cancel, setup, script generation or external command happens, so job
and environment state are untouched. -/
theorem blocked_job_always_rejected_first (job : JobState)
    (inProgress scriptExists force : Bool) (h : job.blocked = true) :
    slurmQueueJob job inProgress scriptExists force
        = ⟨[], Except.error QueueError.Blocked⟩
    ∧ localQueueJob job force = ⟨[], Except.error QueueError.Blocked⟩ := by
  constructor
  · unfold slurmQueueJob
    rw [h]
    simp
  · unfold localQueueJob
    rw [h]
    simp

theorem blocked_rejection_witness :
    (JobState.mk "j" true true true true).blocked = true
    ∧ slurmQueueJob (JobState.mk "j" true true true true) true true true
        = ⟨[], Except.error QueueError.Blocked⟩
    ∧ localQueueJob (JobState.mk "j" true true true true) true
        = ⟨[], Except.error QueueError.Blocked⟩ :=
  ⟨rfl,
   (blocked_job_always_rejected_first (JobState.mk "j" true true true true)
      true true true rfl).1,
   (blocked_job_always_rejected_first (JobState.mk "j" true true true true)
      true true true rfl).2⟩

/-- C7: parsing the queue listing `"R-job1\nPD-job2\nXX-job3\n\n"`
yields `running = [job1]`, `pending = [job2]`, `unknown = [job3]`: the
recognized codes `R` and `PD` map to running and pending, the
unrecognized code `XX` falls into the unknown bucket, and the blank
lines produce no entry and no error. -/
theorem squeue_listing_example_classification :
    refreshInfoDict "R-job1\nPD-job2\nXX-job3\n\n"
      = Except.ok
          [("running", ["job1"]), ("pending", ["job2"]), ("unknown", ["job3"])] :=
  rfl

/-- C8: cancellation never mutates the status cache: for every cached
state, `cancel_by_name` (and `cancel_job`) leaves the environment
unchanged, so any status query afterwards — `jobs_info`,
`pending_jobs`, `running_jobs`, `unknown_jobs` — without an intervening
explicit refresh returns exactly the pre-cancellation cached values. -/
theorem cancel_does_not_mutate_cache (env : SlurmEnvironment)
    (name out : String) (job : JobState) :
    (env.cancelByName name).1 = env
    ∧ (env.cancelJob job).1 = env
    ∧ ((env.cancelByName name).1).jobsInfo out = env.jobsInfo out
    ∧ ((env.cancelByName name).1).pendingJobs out = env.pendingJobs out
    ∧ ((env.cancelByName name).1).runningJobs out = env.runningJobs out
    ∧ ((env.cancelByName name).1).unknownJobs out = env.unknownJobs out :=
  ⟨rfl, rfl, rfl, rfl, rfl, rfl⟩

/-- Appending via `dictAppend` on the three-key status dict yields a three-key status
dict whatever the category key is. -/
lemma dictAppend_three (r p u : List String) (k v : String) :
    ∃ r' p' u',
      dictAppend [("running", r), ("pending", p), ("unknown", u)] k v
        = [("running", r'), ("pending", p'), ("unknown", u')] := by
  by_cases h1 : (("running" : String) == k) = true <;>
  by_cases h2 : (("pending" : String) == k) = true <;>
  by_cases h3 : (("unknown" : String) == k) = true <;>
    simp only [dictAppend, List.map, h1, h2, h3, if_true, if_false,
      Bool.not_eq_true] <;>
    exact ⟨_, _, _, rfl⟩

/-- The parsing loop preserves the three-key shape of the accumulator
dict. -/
lemma parseSqueueLines_shape (lines : List String) :
    ∀ r p u d,
      parseSqueueLines lines [("running", r), ("pending", p), ("unknown", u)]
        = Except.ok d →
      ∃ r' p' u', d = [("running", r'), ("pending", p'), ("unknown", u')] := by
  induction lines with
  | nil =>
    intro r p u d h
    exact ⟨r, p, u, by cases h; rfl⟩
  | cons line rest ih =>
    intro r p u d h
    by_cases hl : line = ""
    · simp only [parseSqueueLines, hl, ne_eq, not_true_eq_false, if_false] at h
      exact ih r p u d h
    · simp only [parseSqueueLines, ne_eq, hl, not_false_eq_true, if_true] at h
      cases hsp : pySplit line '-' with
      | nil => rw [hsp] at h; cases h
      | cons s t =>
        cases t with
        | nil => rw [hsp] at h; cases h
        | cons j t2 =>
          cases t2 with
          | nil =>
            rw [hsp] at h
            obtain ⟨r', p', u', hd⟩ :=
              dictAppend_three r p u (dictGet categories s "unknown") j
            have h2 : parseSqueueLines rest
                (dictAppend [("running", r), ("pending", p), ("unknown", u)]
                  (dictGet categories s "unknown") j) = Except.ok d := h
            rw [hd] at h2
            exact ih r' p' u' d h2
          | cons a t3 => rw [hsp] at h; cases h

/-- A successful `refresh_info` installs a cache with exactly the three
keys. -/
lemma refreshInfo_ok_shape (env : SlurmEnvironment) (out : String)
    (env' : SlurmEnvironment) (h : env.refreshInfo out = Except.ok env') :
    ∃ r p u,
      env'.jobsInfoCache = [("running", r), ("pending", p), ("unknown", u)] := by
  unfold SlurmEnvironment.refreshInfo at h
  cases hd : refreshInfoDict out with
  | error e => rw [hd] at h; cases h
  | ok d =>
    rw [hd] at h
    cases h
    exact parseSqueueLines_shape (pySplit out '\n') [] [] [] d hd

/-- Calling `jobs_info` on a populated cache returns the snapshot without
refreshing. -/
lemma jobsInfo_of_populated (env : SlurmEnvironment) (out : String)
    (h : env.jobsInfoCache ≠ []) :
    env.jobsInfo out = Except.ok (env.jobsInfoCache, env, false) := by
  unfold SlurmEnvironment.jobsInfo
  rw [if_neg h]

/-- C9: after every successful `refresh_info` the cache holds exactly
the keys running, pending, unknown, hence is never the empty dict used
as the never-populated sentinel; `jobs_info` therefore refreshes at
most once per environment: once a `jobs_info` call succeeds, every
later call returns the same cached snapshot without refreshing, until
an explicit `refresh_info`. -/
theorem refresh_populates_sentinel_distinct_cache
    (env : SlurmEnvironment) (out : String) (env' : SlurmEnvironment)
    (h : env.refreshInfo out = Except.ok env') :
    ((∃ r p u,
        env'.jobsInfoCache = [("running", r), ("pending", p), ("unknown", u)])
      ∧ env'.jobsInfoCache ≠ []
      ∧ ∀ out2, env'.jobsInfo out2 = Except.ok (env'.jobsInfoCache, env', false))
    ∧ ∀ env2 out2 d env2' b,
        SlurmEnvironment.jobsInfo env2 out2 = Except.ok (d, env2', b) →
        ∀ out3, env2'.jobsInfo out3 = Except.ok (d, env2', false) := by
  have hshape := refreshInfo_ok_shape env out env' h
  have hne : env'.jobsInfoCache ≠ [] := by
    obtain ⟨r, p, u, hc⟩ := hshape
    rw [hc]
    exact List.cons_ne_nil _ _
  refine ⟨⟨hshape, hne, fun out2 => jobsInfo_of_populated env' out2 hne⟩, ?_⟩
  intro env2 out2 d env2' b h2 out3
  unfold SlurmEnvironment.jobsInfo at h2
  by_cases hc : env2.jobsInfoCache = []
  · rw [if_pos hc] at h2
    cases hr : env2.refreshInfo out2 with
    | error e => rw [hr] at h2; cases h2
    | ok envR =>
      rw [hr] at h2
      simp only [Except.ok.injEq, Prod.mk.injEq] at h2
      obtain ⟨hd2, he2, hb2⟩ := h2
      subst hd2
      subst he2
      have hne2 : envR.jobsInfoCache ≠ [] := by
        obtain ⟨r, p, u, hcc⟩ := refreshInfo_ok_shape env2 out2 envR hr
        rw [hcc]
        exact List.cons_ne_nil _ _
      exact jobsInfo_of_populated envR out3 hne2
  · rw [if_neg hc] at h2
    simp only [Except.ok.injEq, Prod.mk.injEq] at h2
    obtain ⟨hd2, he2, hb2⟩ := h2
    subst hd2
    subst he2
    exact jobsInfo_of_populated env2 out3 hc

/-- C2 counterexample: a job that is blocked and reported in-progress,
submitted with `force = true`, is rejected with the Blocked error and
zero cancellation calls — the claim's "exactly one cancellation call
for every in-progress job with force" fails. -/
theorem inprogress_blocked_counterexample :
    (slurmQueueJob (JobState.mk "j" true true false false) true false true).trace.count
        Event.cancel = 0
    ∧ (slurmQueueJob (JobState.mk "j" true true false false) true false true).outcome
        = Except.error QueueError.Blocked :=
  ⟨rfl, rfl⟩

/-- C2 (amended): for a job reported in-progress by the cluster backend
that passes the blocked and ready checks (steps 1–2): with
`force = true`, `queue_job` issues exactly one cancellation call,
immediately followed by the `reset()` made for the in-progress
condition; with `force = false` it issues zero cancellation calls and —
when the job is not also complete, which is rejected earlier — fails
with AlreadyInProgress before any mutation. -/
theorem inprogress_cancel_policy (job : JobState) (scriptExists : Bool)
    (hb : job.blocked = false) (hr : job.ready = true) :
    ((slurmQueueJob job true scriptExists true).trace.count Event.cancel = 1
      ∧ ∃ pre post, (slurmQueueJob job true scriptExists true).trace
          = pre ++ [Event.cancel, Event.reset] ++ post)
    ∧ ((slurmQueueJob job true scriptExists false).trace.count Event.cancel = 0
      ∧ (job.complete = false →
          slurmQueueJob job true scriptExists false
            = ⟨[], Except.error QueueError.AlreadyInProgress⟩)) := by
  obtain ⟨n, b, r, c, f⟩ := job
  cases b with
  | true => cases hb
  | false =>
  cases r with
  | false => cases hr
  | true =>
  refine ⟨⟨?_, ?_⟩, ?_, ?_⟩
  · cases c <;> cases f <;> cases scriptExists <;> rfl
  · cases c <;> cases f <;> cases scriptExists <;>
      first
        | exact ⟨[], [Event.setup, Event.createScript, Event.sbatch], rfl⟩
        | exact ⟨[], [Event.sbatch], rfl⟩
        | exact ⟨[], [Event.reset, Event.setup, Event.createScript, Event.sbatch], rfl⟩
        | exact ⟨[], [Event.reset, Event.sbatch], rfl⟩
        | exact ⟨[Event.reset], [Event.setup, Event.createScript, Event.sbatch], rfl⟩
        | exact ⟨[Event.reset], [Event.sbatch], rfl⟩
        | exact ⟨[Event.reset], [Event.reset, Event.setup, Event.createScript, Event.sbatch], rfl⟩
        | exact ⟨[Event.reset], [Event.reset, Event.sbatch], rfl⟩
  · cases c <;> rfl
  · cases c with
    | true => intro hc; cases hc
    | false => intro hc; rfl

theorem inprogress_cancel_policy_witness :
    (slurmQueueJob (JobState.mk "j" false true false false) true false true).trace.count
        Event.cancel = 1
    ∧ slurmQueueJob (JobState.mk "j" false true false false) true false false
        = ⟨[], Except.error QueueError.AlreadyInProgress⟩ := by
  have h := inprogress_cancel_policy (JobState.mk "j" false true false false)
    false rfl rfl
  exact ⟨h.1.1, h.2.2 rfl⟩

/-- C3 counterexample: on the cluster backend, when the batch script
already exists at the configured path, a successful `queue_job`
performs no `setup()` call at all — `create()`, the only place
`setup()` is invoked, is skipped. -/
theorem setup_skipped_when_script_exists :
    (slurmQueueJob (JobState.mk "j" false true false false) false true false).outcome
        = Except.ok ()
    ∧ (slurmQueueJob (JobState.mk "j" false true false false) false true false).trace.count
        Event.setup = 0 :=
  ⟨rfl, rfl⟩

/-- C3 (amended): on every successful local `queue_job`, `setup()` runs
immediately before the process launch; on the cluster backend `setup()`
runs (inside `create()`, right before script generation and the sbatch
hand-off) exactly when the batch script does not already exist at the
configured path, and not at all when it does. -/
theorem setup_invocation_policy (job : JobState)
    (inProgress scriptExists force : Bool) :
    ((localQueueJob job force).outcome = Except.ok () →
      ∃ pre, (localQueueJob job force).trace
        = pre ++ [Event.setup, Event.runCommand])
    ∧ ((slurmQueueJob job inProgress scriptExists force).outcome = Except.ok () →
      (scriptExists = true →
        (slurmQueueJob job inProgress scriptExists force).trace.count
          Event.setup = 0)
      ∧ (scriptExists = false →
        ∃ pre, (slurmQueueJob job inProgress scriptExists force).trace
          = pre ++ [Event.setup, Event.createScript, Event.sbatch])) := by
  obtain ⟨n, b, r, c, f⟩ := job
  constructor
  · intro hs
    cases b <;> cases r <;> cases c <;> cases f <;> cases force <;>
      first
        | exact Except.noConfusion hs
        | exact ⟨[], rfl⟩
        | exact ⟨[Event.reset], rfl⟩
        | exact ⟨[Event.reset, Event.reset], rfl⟩
  · intro hs
    refine ⟨fun hse => ?_, fun hse => ?_⟩ <;> subst hse <;>
      cases b <;> cases r <;> cases c <;> cases f <;>
      cases inProgress <;> cases force <;>
      first
        | exact Except.noConfusion hs
        | rfl
        | exact ⟨[], rfl⟩
        | exact ⟨[Event.reset], rfl⟩
        | exact ⟨[Event.cancel, Event.reset], rfl⟩
        | exact ⟨[Event.reset, Event.cancel, Event.reset], rfl⟩
        | exact ⟨[Event.reset, Event.reset], rfl⟩
        | exact ⟨[Event.cancel, Event.reset, Event.reset], rfl⟩
        | exact ⟨[Event.reset, Event.cancel, Event.reset, Event.reset], rfl⟩

theorem setup_invocation_policy_witness :
    (∃ pre, (localQueueJob (JobState.mk "j" false true false false) false).trace
        = pre ++ [Event.setup, Event.runCommand])
    ∧ (∃ pre,
        (slurmQueueJob (JobState.mk "j" false true false false) false false false).trace
          = pre ++ [Event.setup, Event.createScript, Event.sbatch]) := by
  have h := setup_invocation_policy (JobState.mk "j" false true false false)
    false false false
  exact ⟨h.1 rfl, (h.2 rfl).2 rfl⟩

/-- C4 counterexample: a ready, unblocked job that is both complete and
failed, submitted with `force = true`, has `reset()` invoked twice (once
for the complete condition, once for the failed condition), not exactly
once. -/
theorem complete_force_double_reset :
    (slurmQueueJob (JobState.mk "j" false true true true) false false true).trace.count
        Event.reset = 2
    ∧ (slurmQueueJob (JobState.mk "j" false true true true) false false true).outcome
        = Except.ok () :=
  ⟨rfl, rfl⟩

/-- C4 (amended): for every ready, unblocked, complete job: with
`force = false` both backends fail with AlreadyComplete before any
mutation; with `force = true`, provided the job is not also reported
in-progress and not failed, `reset()` is invoked exactly once and the
submission proceeds. -/
theorem complete_force_policy (job : JobState)
    (inProgress scriptExists : Bool)
    (hb : job.blocked = false) (hr : job.ready = true)
    (hc : job.complete = true) :
    (slurmQueueJob job inProgress scriptExists false
        = ⟨[], Except.error QueueError.AlreadyComplete⟩
      ∧ localQueueJob job false
        = ⟨[], Except.error QueueError.AlreadyComplete⟩)
    ∧ (inProgress = false → job.failed = false →
        (slurmQueueJob job inProgress scriptExists true).trace.count
            Event.reset = 1
        ∧ (slurmQueueJob job inProgress scriptExists true).outcome
            = Except.ok ())
    ∧ (job.failed = false →
        (localQueueJob job true).trace.count Event.reset = 1
        ∧ (localQueueJob job true).outcome = Except.ok ()) := by
  obtain ⟨n, b, r, c, f⟩ := job
  cases b with
  | true => cases hb
  | false =>
  cases r with
  | false => cases hr
  | true =>
  cases c with
  | false => cases hc
  | true =>
  refine ⟨⟨rfl, rfl⟩, fun hip hf => ?_, fun hf => ?_⟩
  · subst hip
    cases f with
    | true => cases hf
    | false => cases scriptExists <;> exact ⟨rfl, rfl⟩
  · cases f with
    | true => cases hf
    | false => exact ⟨rfl, rfl⟩

theorem complete_force_policy_witness :
    slurmQueueJob (JobState.mk "j" false true true false) false false false
        = ⟨[], Except.error QueueError.AlreadyComplete⟩
    ∧ (slurmQueueJob (JobState.mk "j" false true true false) false false true).trace.count
        Event.reset = 1 := by
  have h := complete_force_policy (JobState.mk "j" false true true false)
    false false rfl rfl rfl
  exact ⟨h.1.1, (h.2.1 rfl rfl).1⟩

/-- A non-empty line whose split on `'-'` does not have exactly two
pieces makes the parsing loop fail, whatever the accumulator and
wherever the line sits in the listing. -/
lemma parseSqueueLines_error_of_bad (line : String) (hne : line ≠ "")
    (hbad : (pySplit line '-').length ≠ 2) :
    ∀ lines acc, line ∈ lines → parseSqueueLines lines acc = Except.error () := by
  intro lines
  induction lines with
  | nil => intro acc hmem; cases hmem
  | cons l rest ih =>
    intro acc hmem
    rcases List.mem_cons.mp hmem with heq | hmem2
    · subst heq
      simp only [parseSqueueLines, ne_eq, hne, not_false_eq_true, if_true]
      cases hsp : pySplit line '-' with
      | nil => rfl
      | cons a t =>
        cases t with
        | nil => rfl
        | cons b t2 =>
          cases t2 with
          | nil => rw [hsp] at hbad; simp at hbad
          | cons x t3 => rfl
    · by_cases hl : l = ""
      · simp only [parseSqueueLines, hl, ne_eq, not_true_eq_false, if_false]
        exact ih acc hmem2
      · simp only [parseSqueueLines, ne_eq, hl, not_false_eq_true, if_true]
        cases hsp : pySplit l '-' with
        | nil => rfl
        | cons a t =>
          cases t with
          | nil => rfl
          | cons b t2 =>
            cases t2 with
            | nil => exact ih _ hmem2
            | cons x t3 => rfl

/-- C5 counterexample: the queue listing `"job1"` consists of a single
line with no `-` delimiter; `refresh_info` does not skip it and
continue — the tuple unpacking fails and the whole refresh aborts. -/
theorem malformed_line_aborts_refresh :
    refreshInfoDict "job1" = Except.error () := rfl

/-- C5 (amended): a listing line with no delimiter (more precisely, a
non-empty line that does not split into exactly two pieces on `'-'`)
makes the tuple unpacking raise, aborting the whole refresh rather than
being skipped; a line with an empty job name does not abort and is not
skipped either — the empty name is recorded under its status category;
no count of skipped lines is surfaced anywhere. -/
theorem malformed_line_policy (s line : String)
    (hmem : line ∈ pySplit s '\n') (hne : line ≠ "")
    (hbad : (pySplit line '-').length ≠ 2) :
    refreshInfoDict s = Except.error ()
    ∧ refreshInfoDict "R-"
        = Except.ok [("running", [""]), ("pending", []), ("unknown", [])] :=
  ⟨parseSqueueLines_error_of_bad line hne hbad (pySplit s '\n')
      initJobsInfoDict hmem, rfl⟩

theorem malformed_line_policy_witness :
    refreshInfoDict "job2\nR-a" = Except.error ()
    ∧ refreshInfoDict "R-"
        = Except.ok [("running", [""]), ("pending", []), ("unknown", [])] :=
  malformed_line_policy "job2\nR-a" "job2" (by decide) (by decide) (by decide)

/-- C6 counterexample: `LocalJob.pending()` does not fail with
`UnsupportedOperation` — it silently returns the default value
`False`. -/
theorem local_pending_silent_default :
    LocalJob.pending = Except.ok false
    ∧ LocalJob.pending ≠ Except.error QueueError.UnsupportedOperation :=
  ⟨rfl, fun h => Except.noConfusion h⟩

/-- C6 (amended): on the local backend every cancellation operation
(`cancel_job`, `cancel_by_name`, `LocalJob.cancel`) and the queries
`LocalJob.running`, `LocalJob.in_progress`, `pending_jobs`,
`running_jobs`, `in_progress_jobs` fail with `UnsupportedOperation`;
the one exception is `LocalJob.pending`, which silently returns the
default value `False`. -/
theorem local_unsupported_operations :
    LocalJob.running = Except.error QueueError.UnsupportedOperation
    ∧ LocalJob.inProgress = Except.error QueueError.UnsupportedOperation
    ∧ LocalJob.cancel = Except.error QueueError.UnsupportedOperation
    ∧ LocalEnvironment.pendingJobs
        = Except.error QueueError.UnsupportedOperation
    ∧ LocalEnvironment.runningJobs
        = Except.error QueueError.UnsupportedOperation
    ∧ LocalEnvironment.inProgressJobs
        = Except.error QueueError.UnsupportedOperation
    ∧ (∀ name, LocalEnvironment.cancelByName name
        = Except.error QueueError.UnsupportedOperation)
    ∧ (∀ job, LocalEnvironment.cancelJob job
        = Except.error QueueError.UnsupportedOperation)
    ∧ LocalJob.pending = Except.ok false :=
  ⟨rfl, rfl, rfl, rfl, rfl, rfl, fun _ => rfl, fun _ => rfl, rfl⟩

theorem refresh_populates_sentinel_witness :
    (SlurmEnvironment.mk "u" initJobsInfoDict).jobsInfoCache ≠ []
    ∧ (SlurmEnvironment.mk "u" initJobsInfoDict).jobsInfo "R-a"
        = Except.ok (initJobsInfoDict, SlurmEnvironment.mk "u" initJobsInfoDict,
            false) := by
  have h := refresh_populates_sentinel_distinct_cache
    (SlurmEnvironment.init "u") "" (SlurmEnvironment.mk "u" initJobsInfoDict) rfl
  exact ⟨h.1.2.1, h.1.2.2 "R-a"⟩

/-- A decimal numeral below 100 zero-fills to exactly two characters. -/
lemma zfill2_toString_length : ∀ n < 100, (zfill2 (toString n)).length = 2 := by
  decide

/-- C10: with the default buffer 0.25, `slurm_time_and_partition`
computes `allocated_time = int(time * 1.25) = time * 5 / 4` and returns
partition `short` when that is below 120 minutes, `medium` below 1440,
`defq` below 5760, and raises for 5760 and above; every returned time
string has the form `d-hh:mm:00`, where `d`, `hh`, `mm` are the
day/hour/minute decomposition of the allocated time with hours and
minutes zero-padded to two digits. -/
theorem slurm_time_partition_spec (t : Nat) :
    (t * 5 / 4 < 120 →
      ∃ ts, slurmTimeAndPartition t = Except.ok ⟨"short", ts⟩)
    ∧ (120 ≤ t * 5 / 4 → t * 5 / 4 < 1440 →
      ∃ ts, slurmTimeAndPartition t = Except.ok ⟨"medium", ts⟩)
    ∧ (1440 ≤ t * 5 / 4 → t * 5 / 4 < 5760 →
      ∃ ts, slurmTimeAndPartition t = Except.ok ⟨"defq", ts⟩)
    ∧ (5760 ≤ t * 5 / 4 →
      ∃ msg, slurmTimeAndPartition t = Except.error msg)
    ∧ (∀ res, slurmTimeAndPartition t = Except.ok res →
      ∃ d hh mm, t * 5 / 4 = d * 1440 + hh * 60 + mm ∧ hh < 24 ∧ mm < 60
        ∧ (zfill2 (toString hh)).length = 2
        ∧ (zfill2 (toString mm)).length = 2
        ∧ res.time = toString d ++ "-" ++ zfill2 (toString hh) ++ ":"
            ++ zfill2 (toString mm) ++ ":00") := by
  refine ⟨?_, ?_, ?_, ?_, ?_⟩
  · intro h1
    simp only [slurmTimeAndPartition]
    rw [if_pos (show t * 5 / 4 < 2 * 60 by omega)]
    exact ⟨_, rfl⟩
  · intro h1 h2
    simp only [slurmTimeAndPartition]
    rw [if_neg (show ¬t * 5 / 4 < 2 * 60 by omega),
      if_pos (show t * 5 / 4 < 1 * 24 * 60 by omega)]
    exact ⟨_, rfl⟩
  · intro h1 h2
    simp only [slurmTimeAndPartition]
    rw [if_neg (show ¬t * 5 / 4 < 2 * 60 by omega),
      if_neg (show ¬t * 5 / 4 < 1 * 24 * 60 by omega),
      if_pos (show t * 5 / 4 < 4 * 24 * 60 by omega)]
    exact ⟨_, rfl⟩
  · intro h1
    simp only [slurmTimeAndPartition]
    rw [if_neg (show ¬t * 5 / 4 < 2 * 60 by omega),
      if_neg (show ¬t * 5 / 4 < 1 * 24 * 60 by omega),
      if_neg (show ¬t * 5 / 4 < 4 * 24 * 60 by omega)]
    exact ⟨_, rfl⟩
  · intro res hres
    simp only [slurmTimeAndPartition] at hres
    have hd : t * 5 / 4 = (t * 5 / 4 / (60 * 24)) * 1440
        + ((t * 5 / 4 - t * 5 / 4 / (60 * 24) * 24 * 60) / 60) * 60
        + (t * 5 / 4 % 60) := by omega
    have hh24 : (t * 5 / 4 - t * 5 / 4 / (60 * 24) * 24 * 60) / 60 < 24 := by
      omega
    have hm60 : t * 5 / 4 % 60 < 60 := by omega
    by_cases h1 : t * 5 / 4 < 2 * 60
    · rw [if_pos h1] at hres
      cases hres
      exact ⟨_, _, _, hd, hh24, hm60,
        zfill2_toString_length _ (by omega),
        zfill2_toString_length _ (by omega), rfl⟩
    · rw [if_neg h1] at hres
      by_cases h2 : t * 5 / 4 < 1 * 24 * 60
      · rw [if_pos h2] at hres
        cases hres
        exact ⟨_, _, _, hd, hh24, hm60,
          zfill2_toString_length _ (by omega),
          zfill2_toString_length _ (by omega), rfl⟩
      · rw [if_neg h2] at hres
        by_cases h3 : t * 5 / 4 < 4 * 24 * 60
        · rw [if_pos h3] at hres
          cases hres
          exact ⟨_, _, _, hd, hh24, hm60,
            zfill2_toString_length _ (by omega),
            zfill2_toString_length _ (by omega), rfl⟩
        · rw [if_neg h3] at hres
          cases hres

theorem slurm_time_partition_spec_witness :
    (∃ ts, slurmTimeAndPartition 0 = Except.ok ⟨"short", ts⟩)
    ∧ (∃ ts, slurmTimeAndPartition 96 = Except.ok ⟨"medium", ts⟩)
    ∧ (∃ ts, slurmTimeAndPartition 1152 = Except.ok ⟨"defq", ts⟩)
    ∧ (∃ msg, slurmTimeAndPartition 4608 = Except.error msg) :=
  ⟨(slurm_time_partition_spec 0).1 (by decide),
   (slurm_time_partition_spec 96).2.1 (by decide) (by decide),
   (slurm_time_partition_spec 1152).2.2.1 (by decide) (by decide),
   (slurm_time_partition_spec 4608).2.2.2.1 (by decide)⟩

end SlurmJobManager
